import Mathlib

/-!
Verification development for the checkvist-api Go client library.

Shallow embedding conventions:
- Durations (Go time.Duration) are natural numbers of nanoseconds.
- Wall-clock instants (Go time.Time) are natural numbers of seconds.
- Network outcomes are supplied as explicit oracle parameters: each
  embedded operation receives the outcome of every network exchange it
  may perform, and the result records how many exchanges were performed.
- Fallible Go functions return a result structure carrying an optional
  error value.
-/

namespace Checkvist

/-- RetryConfig from options.go: configures the retry behavior for
failed requests. MaxRetries is the maximum number of retry attempts,
BaseDelay the initial delay before the first retry, MaxDelay the
maximum delay between retries; Jitter enables randomized delay. -/
structure RetryConfig where
  MaxRetries : Nat
  BaseDelay : Nat
  MaxDelay : Nat
  Jitter : Bool
  deriving Repr, DecidableEq

/-- DefaultRetryConfig from options.go: MaxRetries 3, BaseDelay 1 second,
MaxDelay 30 seconds, Jitter enabled (durations in nanoseconds). -/
def DefaultRetryConfig : RetryConfig :=
  { MaxRetries := 3
    BaseDelay := 1000000000
    MaxDelay := 30000000000
    Jitter := true }

/-- Modelled from the spec: the source file implementing the Backoff
Calculator (the calculateRetryDelay method exercised by
TestCalculateRetryDelay in client_test.go) is not under src/. Spec 4.2:
raw = baseDelay * 2 ^ attemptNumber, capped at maxDelay; if jitter is
enabled the returned delay is drawn uniformly from [0, raw] with the cap
still enforced, otherwise raw is returned exactly. The uniform draw is
modelled by an explicit source value reduced into the admissible range. -/
def calculateRetryDelay (conf : RetryConfig) (attemptNumber : Nat) (draw : Nat) : Nat :=
  let raw := min (conf.BaseDelay * 2 ^ attemptNumber) conf.MaxDelay
  if conf.Jitter then draw % (raw + 1) else raw

/-- Error kinds of the classification taxonomy (spec section 7). -/
inductive ErrKind
  | transport
  | rateLimited
  | serverError
  | unauthorized
  | notFound
  | badRequest
  | unspecified
  deriving Repr, DecidableEq

/-- Attempt Outcome (spec section 3): the classified result of one
network attempt inside the Request Executor. -/
inductive Outcome
  | success
  | retryable (kind : ErrKind)
  | fatal (kind : ErrKind)
  | cancelled
  deriving Repr, DecidableEq

/-- Result of one logical call through the Request Executor. -/
inductive ExecResult
  | ok
  | apiError (kind : ErrKind)
  | cancelled
  deriving Repr, DecidableEq

/-- Modelled from the spec: the source file implementing the Request
Executor retry loop (the doRequest helper behind doGet, exercised by the
retry tests in client_test.go) is not under src/. Spec 4.4 protocol:
classify the attempt outcome; on success, cancellation or fatal failure
return immediately; on a retryable failure with the retry budget
exhausted return the structured error from the last attempt; otherwise
sleep interruptibly and re-issue. The outcome of attempt i is
outcomes i; sleepCancelled i is true when the caller deadline elapses
during the backoff sleep that follows attempt i (the sleep duration
itself, computed by calculateRetryDelay, does not affect the result).
Returns the call result and the number of network attempts performed. -/
def executeFrom (outcomes : Nat → Outcome) (sleepCancelled : Nat → Bool) :
    Nat → Nat → ExecResult × Nat
  | remaining, attempt =>
    match outcomes attempt with
    | .success => (.ok, 1)
    | .cancelled => (.cancelled, 1)
    | .fatal k => (.apiError k, 1)
    | .retryable k =>
      match remaining with
      | 0 => (.apiError k, 1)
      | r + 1 =>
        if sleepCancelled attempt then (.cancelled, 1)
        else
          let rest := executeFrom outcomes sleepCancelled r (attempt + 1)
          (rest.1, rest.2 + 1)

/-- Modelled from the spec: one logical call starts at attempt 0 with a
retry budget of maxRetries further attempts (spec 4.4 steps 2 and 8). -/
def execute (conf : RetryConfig) (outcomes : Nat → Outcome)
    (sleepCancelled : Nat → Bool) : ExecResult × Nat :=
  executeFrom outcomes sleepCancelled conf.MaxRetries 0

/-- Credential state of the Client (client.go): the fields token and
tokenExp guarded by the mutex mu. An empty token means unauthenticated.
tokenExp is an absolute instant in seconds. -/
structure ClientState where
  token : String
  tokenExp : Nat
  deriving Repr, DecidableEq

/-- Outcome of one auth network exchange (login or refresh POST) as seen
by the Go code: a transport-level failure of httpClient.Do, a non-200
HTTP response carrying status, body and the X-Request-Id header value, a
200 response whose JSON body fails to decode, or a decoded 200 response
carrying the token field. -/
inductive ExchResult
  | transportErr
  | httpErr (status : Nat) (body : String) (requestID : String)
  | decodeErr
  | ok (token : String)
  deriving Repr, DecidableEq

/-- Error returned by the auth operations in client.go: the wrapped
transport error, the wrapped JSON decoding error, or the APIError built
by NewAPIError from a non-200 response (carried here as its raw status,
body and request id; the classification applied by NewAPIError is
verified separately on NewAPIError itself). -/
inductive AuthErr
  | transportErr
  | decodeErr
  | api (status : Nat) (body : String) (requestID : String)
  deriving Repr, DecidableEq

/-- Result of an auth operation: the resulting credential state, the
returned error if any, and how many login and refresh network exchanges
were performed. -/
structure AuthResult where
  state : ClientState
  err : Option AuthErr
  loginCalls : Nat
  refreshCalls : Nat
  deriving Repr, DecidableEq

/-- One hour (the renewal horizon in ensureAuthenticated), in seconds. -/
def hourSeconds : Nat := 3600

/-- 23 hours (the token lifetime written by authenticate and
refreshToken), in seconds. -/
def tokenLifetime : Nat := 23 * 3600

/-- authenticate from client.go (lines 109 to 149): performs one login
POST; on a transport failure or a decode failure the wrapped error is
returned and the credential state is untouched; on a non-200 status the
APIError from NewAPIError is returned and the state is untouched; on a
decoded 200 response the token is stored with expiry now plus 23 hours
under the exclusive lock. Exactly one login exchange is performed; the
outcome of that exchange is the parameter login and the current instant
is now. The URL construction step, which cannot fail for the fixed auth
path, is not modelled. -/
def authenticate (st : ClientState) (login : ExchResult) (now : Nat) : AuthResult :=
  match login with
  | .transportErr => ⟨st, some .transportErr, 1, 0⟩
  | .httpErr s b rid => ⟨st, some (.api s b rid), 1, 0⟩
  | .decodeErr => ⟨st, some .decodeErr, 1, 0⟩
  | .ok tok => ⟨⟨tok, now + tokenLifetime⟩, none, 1, 0⟩

/-- refreshToken from client.go (lines 152 to 197): if the current token
is empty, delegate to Authenticate (one login exchange, no refresh
exchange). Otherwise perform one refresh POST with the old token: a
transport failure or a decode failure is returned directly with no
fallback; a non-200 status falls back to Authenticate; a decoded 200
response stores the new token with expiry now plus 23 hours. The
refresh exchange outcome is the parameter refresh and the login
exchange outcome, consumed only when a login is actually performed, is
the parameter login. -/
def refreshToken (st : ClientState) (refresh login : ExchResult) (now : Nat) : AuthResult :=
  if st.token = "" then authenticate st login now
  else
    match refresh with
    | .transportErr => ⟨st, some .transportErr, 0, 1⟩
    | .httpErr _ _ _ =>
      let r := authenticate st login now
      ⟨r.state, r.err, r.loginCalls, r.refreshCalls + 1⟩
    | .decodeErr => ⟨st, some .decodeErr, 0, 1⟩
    | .ok tok => ⟨⟨tok, now + tokenLifetime⟩, none, 0, 1⟩

/-- ensureAuthenticated from client.go (lines 201 to 217): snapshot the
credential state under the shared lock; if the token is empty perform a
full login via Authenticate; else if the token expires within the next
hour (now plus one hour is strictly after tokenExp) perform a refresh
via refreshToken; otherwise do nothing. -/
def ensureAuthenticated (st : ClientState) (refresh login : ExchResult) (now : Nat) : AuthResult :=
  if st.token = "" then authenticate st login now
  else if st.tokenExp < now + hourSeconds then refreshToken st refresh login now
  else ⟨st, none, 0, 0⟩

/-- The auth operations of client.go, for statements quantifying over
every operation that can touch the credential state. -/
inductive AuthOp
  | login
  | refresh
  | ensure
  deriving Repr, DecidableEq

/-- Dispatch an auth operation: AuthOp.login is authenticate (also the
body of Authenticate and AuthenticateWith2FA, which differ only in the
form fields sent), AuthOp.refresh is refreshToken, AuthOp.ensure is
ensureAuthenticated. -/
def runOp : AuthOp → ClientState → ExchResult → ExchResult → Nat → AuthResult
  | .login, st, _, lg, now => authenticate st lg now
  | .refresh, st, rf, lg, now => refreshToken st rf lg now
  | .ensure, st, rf, lg, now => ensureAuthenticated st rf lg now

/-- The sentinel errors of errors.go that NewAPIError can attach as the
underlying Err of an APIError. -/
inductive Sentinel
  | unauthorized
  | notFound
  | rateLimited
  | badRequest
  | serverError
  deriving Repr, DecidableEq

/-- APIError from errors.go: status code, message, the X-Request-Id
header value, and the underlying sentinel error when one applies. -/
structure APIError where
  StatusCode : Nat
  Message : String
  RequestID : String
  Err : Option Sentinel
  deriving Repr, DecidableEq

/-- NewAPIError from errors.go (lines 53 to 81): builds an APIError from
a response. status and requestID are resp.StatusCode and the
X-Request-Id response header; message is the body text passed by the
caller and statusText stands for http.StatusText applied to the status,
used only when message is empty. The switch maps 401, 404, 429 and 400
to their sentinels and any status of at least 500 to ErrServerError;
every other status leaves Err nil. -/
def NewAPIError (status : Nat) (requestID : String) (message statusText : String) : APIError :=
  { StatusCode := status
    Message := if message = "" then statusText else message
    RequestID := requestID
    Err :=
      if status = 401 then some .unauthorized
      else if status = 404 then some .notFound
      else if status = 429 then some .rateLimited
      else if status = 400 then some .badRequest
      else if 500 ≤ status then some .serverError
      else none }

/-- TaskStatus from models.go: a Go int with constants 0, 1, 2. -/
abbrev TaskStatus := Int

/-- StatusOpen from models.go. -/
def StatusOpen : TaskStatus := 0

/-- StatusClosed from models.go. -/
def StatusClosed : TaskStatus := 1

/-- StatusInvalidated from models.go. -/
def StatusInvalidated : TaskStatus := 2

/-- Task from models.go, restricted to the fields the filter predicates
inspect: content text, status, the raw tags string, the parsed tag set
(the keys of the Go Tags map that are mapped to true), and the parsed
due date (an Option, as the Go field is a pointer; instants in
seconds). -/
structure Task where
  ID : Int
  Content : String
  Status : TaskStatus
  TagsAsText : String
  Tags : List String
  DueDate : Option Nat

/-- Filter from filter.go: the tasks to filter and the accumulated
predicates. -/
structure Filter where
  tasks : List Task
  filters : List (Task → Bool)

/-- NewFilter from filter.go: a Filter over the given tasks with no
predicates added. -/
def NewFilter (tasks : List Task) : Filter := ⟨tasks, []⟩

/-- WithStatus from filter.go: appends a predicate comparing the task
status for equality. Every other WithX builder appends its predicate the
same way; the claims quantify over the accumulated predicate list, so
the individual predicate bodies are not needed. -/
def Filter.WithStatus (f : Filter) (status : TaskStatus) : Filter :=
  { f with filters := f.filters ++ [fun t => t.Status == status] }

/-- matches from filter.go: true when the task satisfies every
accumulated predicate. -/
def Filter.matches (f : Filter) (task : Task) : Bool :=
  f.filters.all fun flt => flt task

/-- Apply from filter.go: with no predicates added, return a copy of the
task slice (in the embedding, the same list); otherwise return, in
order, the tasks that match every predicate. -/
def Filter.Apply (f : Filter) : List Task :=
  if f.filters.isEmpty then f.tasks
  else f.tasks.filter fun task => f.matches task

/-- Helper: when every attempt is a retryable failure and no sleep is
cancelled, the executor loop uses its whole budget and reports the kind
of the final attempt. -/
theorem executeFrom_retryable (outcomes : Nat → Outcome) (sc : Nat → Bool)
    (k : Nat → ErrKind) (hall : ∀ i, outcomes i = .retryable (k i))
    (hs : ∀ i, sc i = false) :
    ∀ remaining attempt, executeFrom outcomes sc remaining attempt =
      (.apiError (k (attempt + remaining)), remaining + 1) := by
  intro remaining
  induction remaining with
  | zero =>
    intro attempt
    simp [executeFrom, hall attempt]
  | succ r ih =>
    intro attempt
    have harith : attempt + 1 + r = attempt + (r + 1) := by omega
    simp [executeFrom, hall attempt, hs attempt, ih (attempt + 1), harith]

/-- C1: for every logical call whose every network attempt yields a
retryable failure, the Request Executor performs exactly
maxRetries + 1 network attempts and returns the structured API error
classified from the last attempt (the attempt with index maxRetries),
not a synthesized exhausted error. -/
theorem retry_exhaustion (conf : RetryConfig) (outcomes : Nat → Outcome)
    (sc : Nat → Bool) (k : Nat → ErrKind)
    (hall : ∀ i, outcomes i = .retryable (k i)) (hs : ∀ i, sc i = false) :
    execute conf outcomes sc = (.apiError (k conf.MaxRetries), conf.MaxRetries + 1) := by
  unfold execute
  rw [executeFrom_retryable outcomes sc k hall hs]
  simp

/-- Witness for C1: maxRetries = 2 with every attempt an HTTP 503
(serverError) gives exactly 3 attempts and the serverError kind. -/
theorem retry_exhaustion_witness :
    execute ⟨2, 1, 10, false⟩ (fun _ => .retryable .serverError) (fun _ => false) =
      (.apiError .serverError, 3) :=
  retry_exhaustion ⟨2, 1, 10, false⟩ (fun _ => .retryable .serverError)
    (fun _ => false) (fun _ => .serverError) (fun _ => rfl) (fun _ => rfl)

/-- C2: for attemptNumber at least 1 and jitter disabled, the backoff
calculator returns exactly min (baseDelay * 2 ^ attemptNumber) maxDelay;
with jitter enabled the returned delay is bounded by that same value
(and is a natural number, hence at least 0). -/
theorem calculateRetryDelay_spec (conf : RetryConfig) (n draw : Nat) (_h : 1 ≤ n) :
    (conf.Jitter = false →
      calculateRetryDelay conf n draw = min (conf.BaseDelay * 2 ^ n) conf.MaxDelay)
    ∧ (conf.Jitter = true →
      calculateRetryDelay conf n draw ≤ min (conf.BaseDelay * 2 ^ n) conf.MaxDelay) := by
  constructor
  · intro hj
    simp [calculateRetryDelay, hj]
  · intro hj
    simp only [calculateRetryDelay, hj, if_true]
    exact Nat.le_of_lt_succ (Nat.mod_lt draw (Nat.succ_pos _))

/-- Witness for C2: baseDelay 100, maxDelay 1000, jitter disabled,
attempt 3 gives exactly 800. -/
theorem calculateRetryDelay_witness :
    calculateRetryDelay ⟨5, 100, 1000, false⟩ 3 0 = 800 :=
  ((calculateRetryDelay_spec ⟨5, 100, 1000, false⟩ 3 0 (by norm_num)).1 rfl).trans
    (by norm_num)

/-- Helper: if attempts attempt .. attempt + i are all retryable, the
sleeps after the first i of them are not cancelled, the sleep after
attempt attempt + i is cancelled, and the remaining budget allows a
further attempt at that point, then the executor loop returns the
cancellation result having performed exactly i + 1 network attempts. -/
theorem executeFrom_cancel (outcomes : Nat → Outcome) (sc : Nat → Bool)
    (k : Nat → ErrKind) :
    ∀ i attempt remaining,
      (∀ j, j ≤ i → outcomes (attempt + j) = .retryable (k (attempt + j))) →
      (∀ j, j < i → sc (attempt + j) = false) →
      sc (attempt + i) = true →
      i + 1 ≤ remaining →
      executeFrom outcomes sc remaining attempt = (.cancelled, i + 1) := by
  intro i
  induction i with
  | zero =>
    intro attempt remaining hout _ hci hrem
    obtain ⟨r, hr⟩ : ∃ r, remaining = r + 1 := ⟨remaining - 1, by omega⟩
    have h0 : outcomes attempt = .retryable (k attempt) := by
      simpa using hout 0 (by omega)
    have hc0 : sc attempt = true := by simpa using hci
    rw [hr]
    simp [executeFrom, h0, hc0]
  | succ i ih =>
    intro attempt remaining hout hsc hci hrem
    obtain ⟨r, hr⟩ : ∃ r, remaining = r + 1 := ⟨remaining - 1, by omega⟩
    have h0 : outcomes attempt = .retryable (k attempt) := by
      simpa using hout 0 (by omega)
    have hc0 : sc attempt = false := by simpa using hsc 0 (by omega)
    have hrest : executeFrom outcomes sc r (attempt + 1) = (.cancelled, i + 1) := by
      refine ih (attempt + 1) r ?_ ?_ ?_ (by omega)
      · intro j hj
        have := hout (j + 1) (by omega)
        simpa [Nat.add_assoc, Nat.add_comm 1 j] using this
      · intro j hj
        have := hsc (j + 1) (by omega)
        simpa [Nat.add_assoc, Nat.add_comm 1 j] using this
      · have := hci
        simpa [Nat.add_assoc, Nat.add_comm 1 i] using this
    rw [hr]
    simp [executeFrom, h0, hc0, hrest]

/-- C5: for every call whose first i + 1 attempts are all retryable
failures, whose earlier inter-attempt sleeps complete, whose caller
deadline elapses during the sleep that follows attempt i, and whose
retry budget would have allowed a further attempt, the call returns the
cancellation result after exactly i + 1 network attempts (no further
attempt is issued once the cancellation is observed), and the
cancellation result is distinguishable from success and from every
structured API error. -/
theorem cancel_during_sleep (conf : RetryConfig) (outcomes : Nat → Outcome)
    (sc : Nat → Bool) (i : Nat) (k : Nat → ErrKind)
    (hout : ∀ j, j ≤ i → outcomes j = .retryable (k j))
    (hsc : ∀ j, j < i → sc j = false)
    (hci : sc i = true)
    (hbudget : i + 1 ≤ conf.MaxRetries) :
    execute conf outcomes sc = (.cancelled, i + 1)
    ∧ ExecResult.cancelled ≠ ExecResult.ok
    ∧ ∀ k2, ExecResult.cancelled ≠ ExecResult.apiError k2 := by
  refine ⟨?_, by simp, by simp⟩
  unfold execute
  refine executeFrom_cancel outcomes sc k i 0 conf.MaxRetries ?_ ?_ ?_ hbudget
  · intro j hj
    simpa using hout j hj
  · intro j hj
    simpa using hsc j hj
  · simpa using hci

/-- Witness for C5: two 429 attempts with the deadline elapsing during
the second inter-attempt sleep give cancellation after two attempts. -/
theorem cancel_during_sleep_witness :
    execute ⟨10, 100, 1000, false⟩ (fun _ => .retryable .rateLimited)
      (fun j => j == 1) = (.cancelled, 2) :=
  (cancel_during_sleep ⟨10, 100, 1000, false⟩ (fun _ => .retryable .rateLimited)
    (fun j => j == 1) 1 (fun _ => .rateLimited)
    (fun _ _ => rfl)
    (fun j hj => by simp [Nat.lt_one_iff.mp hj])
    rfl (by norm_num)).1

/-- Helper: whenever the stored token is nonempty, refreshToken performs
exactly one refresh exchange, whatever the outcomes. -/
theorem refreshToken_refreshCalls (st : ClientState) (rf lg : ExchResult)
    (now : Nat) (h : ¬ st.token = "") :
    (refreshToken st rf lg now).refreshCalls = 1 := by
  cases rf <;> cases lg <;> simp [refreshToken, authenticate, h]

/-- Counterexample for C3: with a nonempty stored token, a refresh
exchange failing at the transport level returns the wrapped transport
error directly; no fallback login exchange is performed even though the
login exchange would have succeeded, contradicting the claim that every
refresh failure triggers exactly one fallback login and that the caller
sees an error only if both exchanges fail. -/
theorem refresh_fallback_cex :
    (refreshToken ⟨"tok", 0⟩ .transportErr (.ok "fresh") 0).loginCalls = 0
    ∧ (refreshToken ⟨"tok", 0⟩ .transportErr (.ok "fresh") 0).err = some .transportErr
    ∧ ¬((refreshToken ⟨"tok", 0⟩ .transportErr (.ok "fresh") 0).loginCalls = 1
        ∧ (refreshToken ⟨"tok", 0⟩ .transportErr (.ok "fresh") 0).err = none) := by
  decide

/-- C3 amended: with a nonempty stored token, only a refresh exchange
that fails with a non-200 HTTP response triggers the fallback full
login; in that case exactly one login exchange is performed and the
caller sees an error iff the fallback login fails. A transport-level
failure or a response-decoding failure of the refresh exchange is
reported directly with no fallback login. -/
theorem refresh_fallback_amended (st : ClientState) (s : Nat) (b rid : String)
    (login : ExchResult) (now : Nat) (h : st.token ≠ "") :
    ((refreshToken st (.httpErr s b rid) login now).loginCalls = 1
      ∧ ((refreshToken st (.httpErr s b rid) login now).err = none ↔
          ∃ t, login = .ok t))
    ∧ (∀ lg now2, (refreshToken st .transportErr lg now2).loginCalls = 0
        ∧ (refreshToken st .transportErr lg now2).err = some .transportErr)
    ∧ (∀ lg now2, (refreshToken st .decodeErr lg now2).loginCalls = 0
        ∧ (refreshToken st .decodeErr lg now2).err = some .decodeErr) := by
  refine ⟨⟨?_, ?_⟩, fun lg now2 => ?_, fun lg now2 => ?_⟩
  · cases login <;> simp [refreshToken, authenticate, h]
  · cases login <;> simp [refreshToken, authenticate, h]
  · simp [refreshToken, h]
  · simp [refreshToken, h]

/-- Witness for C3 amended: a 401 on the refresh exchange with a
succeeding login exchange performs exactly one fallback login. -/
theorem refresh_fallback_witness :
    (refreshToken ⟨"tok", 0⟩ (.httpErr 401 "expired" "") (.ok "fresh") 0).loginCalls = 1 :=
  ((refresh_fallback_amended ⟨"tok", 0⟩ 401 "expired" "" (.ok "fresh") 0
    (by decide)).1).1

/-- Counterexample for C4: a login exchange answered with HTTP 503
performs exactly one network attempt, not the maxRetries + 1 = 4
attempts that the retry discipline of the default retry configuration
would demand for a 5xx outcome. -/
theorem auth_no_retry_cex :
    (authenticate ⟨"", 0⟩ (.httpErr 503 "unavailable" "") 0).loginCalls = 1
    ∧ DefaultRetryConfig.MaxRetries + 1 = 4
    ∧ (authenticate ⟨"", 0⟩ (.httpErr 503 "unavailable" "") 0).loginCalls ≠
        DefaultRetryConfig.MaxRetries + 1 := by
  decide

/-- C4 amended: the login and refresh network calls are both single
shot. The login exchange performs exactly one network attempt with no
retry or backoff for any outcome (including transport failures, 5xx and
429); with a nonempty stored token the refresh operation performs
exactly one refresh network attempt for any outcome, never retrying it
(at most the single fallback login follows a non-200); and an HTTP 401
on the login endpoint is fatal and never retried: the structured error
is returned after that single attempt and the credential state is
untouched. -/
theorem auth_single_attempt (st : ClientState) (r : ExchResult) (now : Nat) :
    ((authenticate st r now).loginCalls = 1 ∧ (authenticate st r now).refreshCalls = 0)
    ∧ (∀ rf lg, ¬ st.token = "" →
        (refreshToken st rf lg now).refreshCalls = 1
        ∧ (refreshToken st rf lg now).loginCalls ≤ 1)
    ∧ ∀ b rid, authenticate st (.httpErr 401 b rid) now = ⟨st, some (.api 401 b rid), 1, 0⟩ := by
  refine ⟨?_, fun rf lg h => ⟨refreshToken_refreshCalls st rf lg now h, ?_⟩,
    fun b rid => rfl⟩
  · cases r <;> simp [authenticate]
  · cases rf <;> cases lg <;> simp [refreshToken, authenticate, h]

/-- Witness for C4 amended: a refresh exchange answered with HTTP 503
performs exactly one refresh network attempt. -/
theorem auth_single_attempt_witness :
    (refreshToken ⟨"tok", 0⟩ (.httpErr 503 "unavailable" "") .transportErr 5).refreshCalls = 1 :=
  ((auth_single_attempt ⟨"tok", 0⟩ .transportErr 5).2.1
    (.httpErr 503 "unavailable" "") .transportErr (by decide)).1

/-- C6: with a nonempty stored token, ensureAuthenticated performs a
refresh exchange iff the token expiry lies strictly less than one hour
after the current instant; otherwise it is a no-op: no network exchange,
no error and no state change. -/
theorem ensure_refresh_iff (st : ClientState) (refresh login : ExchResult)
    (now : Nat) (h : st.token ≠ "") :
    ((ensureAuthenticated st refresh login now).refreshCalls = 1 ↔
        st.tokenExp < now + hourSeconds)
    ∧ (¬ st.tokenExp < now + hourSeconds →
        ensureAuthenticated st refresh login now = ⟨st, none, 0, 0⟩) := by
  by_cases hlt : st.tokenExp < now + hourSeconds
  · refine ⟨?_, fun hc => absurd hlt hc⟩
    simp only [ensureAuthenticated, h, if_neg h, if_pos hlt, hlt, iff_true]
    exact refreshToken_refreshCalls st refresh login now h
  · constructor
    · simp [ensureAuthenticated, h, hlt]
    · intro _
      simp [ensureAuthenticated, h, hlt]

/-- Witness for C6: a token expiring far in the future leaves the state
untouched with no exchange performed. -/
theorem ensure_refresh_iff_witness :
    ensureAuthenticated ⟨"tok", 999999⟩ .transportErr .transportErr 0 =
      ⟨⟨"tok", 999999⟩, none, 0, 0⟩ :=
  (ensure_refresh_iff ⟨"tok", 999999⟩ .transportErr .transportErr 0
    (by decide)).2 (by decide)

/-- C8: the credential-state invariant over every auth operation: an
operation that returns an error leaves the credential state untouched;
whenever the stored token changes, the operation succeeded and the new
token is exactly the token delivered by a successful login or refresh
exchange (the token is never reset to empty by the client itself); and
with an empty stored token, ensureAuthenticated performs a full login
regardless of the stored expiry timestamp, with no refresh exchange. -/
theorem credential_state_invariant (op : AuthOp) (st : ClientState)
    (rf lg : ExchResult) (now : Nat) :
    ((runOp op st rf lg now).err.isSome → (runOp op st rf lg now).state = st)
    ∧ ((runOp op st rf lg now).state.token ≠ st.token →
        (runOp op st rf lg now).err = none
        ∧ (lg = .ok (runOp op st rf lg now).state.token
            ∨ rf = .ok (runOp op st rf lg now).state.token))
    ∧ (st.token = "" →
        runOp .ensure st rf lg now = authenticate st lg now
        ∧ (runOp .ensure st rf lg now).loginCalls = 1
        ∧ (runOp .ensure st rf lg now).refreshCalls = 0) := by
  refine ⟨?_, ?_, fun hemp => ?_⟩
  · cases op <;> by_cases hemp : st.token = "" <;> cases rf <;> cases lg <;>
      simp [runOp, authenticate, refreshToken, ensureAuthenticated, hemp] <;>
      split_ifs <;> simp_all
  · cases op <;> by_cases hemp : st.token = "" <;> cases rf <;> cases lg <;>
      simp [runOp, authenticate, refreshToken, ensureAuthenticated, hemp] <;>
      split_ifs <;> simp_all
  · refine ⟨?_, ?_, ?_⟩ <;> cases lg <;>
      simp [runOp, authenticate, ensureAuthenticated, hemp]

/-- Witness for C8: with an empty token and an expiry timestamp far in
the future, ensureAuthenticated still performs the full login. -/
theorem credential_state_invariant_witness :
    runOp .ensure ⟨"", 999999999⟩ .transportErr (.ok "fresh") 7 =
      authenticate ⟨"", 999999999⟩ (.ok "fresh") 7 :=
  ((credential_state_invariant .ensure ⟨"", 999999999⟩ .transportErr
    (.ok "fresh") 7).2.2 rfl).1

/-- Counterexample for C7: HTTP status 600 is a non-2xx status outside
400, 401, 404, 429 and outside 500 to 599, so the claim requires the
unspecified classification (no sentinel), but NewAPIError attaches the
serverError sentinel to every status of at least 500. -/
theorem api_error_cex :
    (NewAPIError 600 "rid" "body" "").Err = some .serverError
    ∧ ¬ (NewAPIError 600 "rid" "body" "").Err = none := by
  decide

/-- C7 amended: the structured API error carries an equality-matchable
sentinel determined by the status code: 429 maps to rateLimited, every
status of at least 500 (not only 500 to 599) to serverError, 401 to
unauthorized, 404 to notFound, 400 to badRequest, and every other
status to the unspecified classification (no sentinel) carrying the
literal status and body; the X-Request-Id header value is surfaced
verbatim as RequestID. -/
theorem api_error_classification (status : Nat) (rid msg stxt : String) :
    ((NewAPIError status rid msg stxt).Err = some .rateLimited ↔ status = 429)
    ∧ ((NewAPIError status rid msg stxt).Err = some .serverError ↔ 500 ≤ status)
    ∧ ((NewAPIError status rid msg stxt).Err = some .unauthorized ↔ status = 401)
    ∧ ((NewAPIError status rid msg stxt).Err = some .notFound ↔ status = 404)
    ∧ ((NewAPIError status rid msg stxt).Err = some .badRequest ↔ status = 400)
    ∧ ((NewAPIError status rid msg stxt).Err = none ↔
        (status ≠ 401 ∧ status ≠ 404 ∧ status ≠ 429 ∧ status ≠ 400 ∧ status < 500))
    ∧ (NewAPIError status rid msg stxt).StatusCode = status
    ∧ (NewAPIError status rid msg stxt).RequestID = rid
    ∧ (msg ≠ "" → (NewAPIError status rid msg stxt).Message = msg) := by
  refine ⟨?_, ?_, ?_, ?_, ?_, ?_, rfl, rfl, fun hm => ?_⟩ <;>
    simp only [NewAPIError] <;> (try split_ifs) <;> simp_all

/-- Witness for C7 amended: a 503 response with a nonempty body keeps
the body as the message and is classified serverError. -/
theorem api_error_classification_witness :
    (NewAPIError 503 "req-1" "unavailable" "").Message = "unavailable"
    ∧ (NewAPIError 503 "req-1" "unavailable" "").Err = some .serverError :=
  ⟨(api_error_classification 503 "req-1" "unavailable" "").2.2.2.2.2.2.2.2
      (by decide),
    (api_error_classification 503 "req-1" "unavailable" "").2.1.mpr (by norm_num)⟩

/-- C10: Apply returns exactly those tasks, in their original order, for
which every added predicate holds (the filter of the task list by the
conjunction of the accumulated predicates), and with no predicates
added it returns the input list unchanged (in the pure embedding, the
fresh copy made by the Go code is the same list value, and the input
tasks are never mutated). -/
theorem apply_filter_spec (f : Filter) :
    f.Apply = f.tasks.filter (fun t => f.filters.all fun flt => flt t)
    ∧ ∀ ts : List Task, (NewFilter ts).Apply = ts := by
  constructor
  · by_cases hemp : f.filters.isEmpty
    · have hnil : f.filters = [] := List.isEmpty_iff.mp hemp
      simp [Filter.Apply, hemp, hnil]
    · simp [Filter.Apply, hemp, Filter.matches]
  · intro ts
    simp [NewFilter, Filter.Apply]

end Checkvist
